import Mathlib

/-!
Verification development for the nakuritycore contract linter.

Python strings are modelled as lists of Unicode code points (`PyStr`);
the helpers below translate the exact Python string operations the
source uses (`str.lower`, `str.strip`, `str.split`, substring `in`,
`str.startswith`, `str.isdigit`, `str.replace`, `str.splitlines`).
-/

/-- A Python string, as its sequence of Unicode code points. -/
abbrev PyStr := List Nat

/-- Build a `PyStr` from a Lean string literal (code points of its characters). -/
def pstr (s : String) : PyStr := s.data.map Char.toNat

/-- Python `str.isspace` on one code point (ASCII whitespace, as used here). -/
def isSpaceCp (c : Nat) : Bool :=
  c == 32 || c == 9 || c == 10 || c == 13 || c == 11 || c == 12

/-- ASCII decimal digit test, Python `str.isdigit` on one code point. -/
def isDigitCp (c : Nat) : Bool := 48 ≤ c && c ≤ 57

/-- ASCII uppercase test. -/
def isUpperCp (c : Nat) : Bool := 65 ≤ c && c ≤ 90

/-- Python `str.lower` on one code point (ASCII case mapping). -/
def lowerCp (c : Nat) : Nat := if isUpperCp c then c + 32 else c

/-- Python `str.lower`. -/
def pyLower (s : PyStr) : PyStr := s.map lowerCp

/-- Drop leading whitespace (half of Python `str.strip`). -/
def lstrip (s : PyStr) : PyStr := s.dropWhile isSpaceCp

/-- Python `str.strip`: drop whitespace from both ends. -/
def pyStrip (s : PyStr) : PyStr :=
  ((lstrip s).reverse.dropWhile isSpaceCp).reverse

/-- Python `str.startswith`. -/
def pyStartsWith : PyStr → PyStr → Bool
  | _, [] => true
  | [], _ :: _ => false
  | c :: s, p :: ps => c == p && pyStartsWith s ps

/-- Python substring containment, `pat in s`. -/
def pyContains : PyStr → PyStr → Bool
  | s, pat =>
    match s with
    | [] => pat.isEmpty
    | _ :: rest => pyStartsWith s pat || pyContains rest pat

/-- Split at every code point satisfying `p`, keeping empty fields
(Python `str.split(sep)` semantics for a one-character separator). -/
def splitIf (p : Nat → Bool) : PyStr → List PyStr
  | [] => [[]]
  | c :: rest =>
    if p c then [] :: splitIf p rest
    else
      match splitIf p rest with
      | [] => [[c]]
      | f :: fs => (c :: f) :: fs

/-- Helper for `splitOnSub`: structural recursion on a fuel bound
(`fuel ≥ length of the string` at every call, so the fuel-exhausted
branch is unreachable). -/
def splitOnSubAux (pat : PyStr) : Nat → PyStr → List PyStr
  | _, [] => [[]]
  | 0, s => [s]
  | fuel + 1, c :: rest =>
    if !pat.isEmpty && pyStartsWith (c :: rest) pat then
      [] :: splitOnSubAux pat fuel (List.drop (pat.length - 1) rest)
    else
      match splitOnSubAux pat fuel rest with
      | [] => [[c]]
      | f :: fs => (c :: f) :: fs

/-- Python `str.split(sep)` for a multi-character separator: split on
leftmost non-overlapping occurrences, keeping empty fields. -/
def splitOnSub (pat s : PyStr) : List PyStr := splitOnSubAux pat s.length s

/-- Python no-argument `str.split()`: whitespace split, dropping empty fields. -/
def splitWs (s : PyStr) : List PyStr :=
  (splitIf isSpaceCp s).filter (fun f => !f.isEmpty)

/-- Python `str.splitlines` (newline-only model; `"".splitlines() == []`). -/
def splitlines (s : PyStr) : List PyStr :=
  if s.isEmpty then [] else splitIf (fun c => c == 10) s

/-- Python `str.replace(",", " ")`. -/
def replaceCommaSpace (s : PyStr) : PyStr :=
  s.map (fun c => if c == 44 then 32 else c)

/-- Python `str.isdigit` on a whole token: nonempty and all digits. -/
def isDigitStr (s : PyStr) : Bool := !s.isEmpty && s.all isDigitCp

/-- Python `int(s)` on a digit-only token. -/
def natOfDigits (s : PyStr) : Nat := s.foldl (fun a c => a * 10 + (c - 48)) 0

example : pstr "Takes 2" = [84, 97, 107, 101, 115, 32, 50] := by decide

example : pyLower (pstr "Takes 2") = pstr "takes 2" := by decide

example : pyStrip (pstr "  x, y ") = pstr "x, y" := by decide

example : pyContains (pstr "takes 2 arguments: x") (pstr "argument") = true := by decide

example : splitIf (fun c => c == 58) (pstr "a: b") = [pstr "a", pstr " b"] := by decide

example : splitOnSub (pstr "return") (pstr "xreturnsy") = [pstr "x", pstr "sy"] := by decide

example : splitWs (pstr " x  y ") = [pstr "x", pstr "y"] := by decide

example : natOfDigits (pstr "42") = 42 := by decide

/-!
## Expectation rules — `Nakurity._parse_expectations`

The Python rule record is the dict
`{"args": [], "return": None, "no_exceptions": False, "must_call": []}`,
with the key `"args_expected_count"` only added when a `takes` line with a
digit token is seen; that key is an `Option Nat` here.
-/

/-- The structured rule record built by `Nakurity._parse_expectations`. -/
structure Rules where
  args : List PyStr
  ret : Option PyStr
  no_exceptions : Bool
  must_call : List PyStr
  args_expected_count : Option Nat
deriving DecidableEq, Repr

/-- The initial rule record (all fields empty, count key absent). -/
def emptyRules : Rules :=
  { args := [], ret := none, no_exceptions := false,
    must_call := [], args_expected_count := none }

def argumentTok : PyStr := pstr "argument"

def colonTok : PyStr := pstr ":"

def takesTok : PyStr := pstr "takes"

def returnTok : PyStr := pstr "return"

def noExceptionTok : PyStr := pstr "no exception"

def shouldNotRaiseTok : PyStr := pstr "should not raise"

def mustCallTok : PyStr := pstr "must call"

/-- `[int(s) for s in line.split() if s.isdigit()]`, as the first such
integer if any (the code keeps `n[0]`). -/
def firstDigitTok (line : PyStr) : Option Nat :=
  (((splitWs line).filter isDigitStr).map natOfDigits).head?

/-- One iteration of the `for line in text.splitlines()` loop of
`Nakurity._parse_expectations`: strip and lower-case the line, skip it
when empty, otherwise run the `if/elif` chain. -/
def parseLine (rules : Rules) (raw : PyStr) : Rules :=
  let line := pyLower (pyStrip raw)
  if line.isEmpty then rules
  else if pyContains line argumentTok && pyContains line colonTok then
    let afterColon := (splitIf (fun c => c == 58) line).getD 1 []
    let args := splitWs (replaceCommaSpace (pyStrip afterColon))
    { rules with args := rules.args ++ args }
  else if pyStartsWith line takesTok then
    match firstDigitTok line with
    | some n => { rules with args_expected_count := some n }
    | none => rules
  else if pyContains line returnTok then
    { rules with ret := some (pyStrip ((splitOnSub returnTok line).getLastD [])) }
  else if pyContains line noExceptionTok || pyContains line shouldNotRaiseTok then
    { rules with no_exceptions := true }
  else if pyContains line mustCallTok then
    { rules with
      must_call := rules.must_call ++ [pyStrip ((splitOnSub mustCallTok line).getLastD [])] }
  else rules

/-- `Nakurity._parse_expectations`. -/
def parseExpectations (text : PyStr) : Rules :=
  (splitlines text).foldl parseLine emptyRules

example :
    parseExpectations (pstr "takes 1 argument: x") =
      { emptyRules with args := [pstr "x"] } := by decide

example :
    parseExpectations (pstr "takes 2") =
      { emptyRules with args_expected_count := some 2 } := by decide

example :
    parseExpectations (pstr "returns int") =
      { emptyRules with ret := some (pstr "s int") } := by decide

example :
    parseExpectations (pstr "should not raise exception") =
      { emptyRules with no_exceptions := true } := by decide

example :
    parseExpectations (pstr "must call greet") =
      { emptyRules with must_call := [pstr "greet"] } := by decide

/-!
## Runtime values, entities and the diagnostic lines

Python runtime values are modelled by their category (the categories the
checks distinguish): `vFloat` and `vOther` carry only their truthiness,
since no check looks further inside them.  An exception that
`except Exception` catches is a `PyExc` (its class name and message).
Every `print`/`tracer._write`/`tracer.trace`/logger call in the source
becomes one constructor of `Line`, carrying the data the format string
interpolates.
-/

/-- A Python runtime value, by the category the linter's checks see. -/
inductive Value where
  | vInt : Int → Value
  | vStr : PyStr → Value
  | vBool : Bool → Value
  | vFloat : (truthy : Bool) → Value
  | vNone : Value
  | vOther : (truthy : Bool) → Value
deriving DecidableEq, Repr

/-- An `Exception`-derived Python fault: class name and message. -/
structure PyExc where
  excClass : PyStr
  msg : PyStr
deriving DecidableEq, Repr

/-- Python truthiness (`bool(v)`) of a modelled value. -/
def pyTruthy : Value → Bool
  | .vInt n => n != 0
  | .vStr s => !s.isEmpty
  | .vBool b => b
  | .vFloat t => t
  | .vNone => false
  | .vOther t => t

/-- `type(v).__name__` for a modelled value. -/
def typeNameOf : Value → PyStr
  | .vInt _ => pstr "int"
  | .vStr _ => pstr "str"
  | .vBool _ => pstr "bool"
  | .vFloat _ => pstr "float"
  | .vNone => pstr "NoneType"
  | .vOther _ => pstr "object"

/-- `isinstance(v, eval(expected))` for `expected` one of
`"int"`, `"float"`, `"str"`, `"bool"` (note `bool` is a subclass of
`int` in Python, so a `vBool` is an instance of `int`). -/
def isInstanceOf (v : Value) (expected : PyStr) : Bool :=
  if expected == pstr "int" then
    match v with
    | .vInt _ => true
    | .vBool _ => true
    | _ => false
  else if expected == pstr "float" then
    match v with
    | .vFloat _ => true
    | _ => false
  else if expected == pstr "str" then
    match v with
    | .vStr _ => true
    | _ => false
  else if expected == pstr "bool" then
    match v with
    | .vBool _ => true
    | _ => false
  else false

/-- Whether `expected in ("int", "float", "str", "bool")`. -/
def isPrimName (expected : PyStr) : Bool :=
  expected == pstr "int" || expected == pstr "float" ||
  expected == pstr "str" || expected == pstr "bool"

/-- What a registered entity is to `inspect`: a plain function, a class,
or anything else. -/
inductive ObjKind where
  | func
  | cls
  | other
deriving DecidableEq, Repr

/-- `inspect.isclass(obj)` / `isinstance(obj, FunctionType)` word used in
the inspect header: `"class" if inspect.isclass(obj) else "function"`. -/
def kindWord : ObjKind → PyStr
  | .cls => pstr "class"
  | _ => pstr "function"

/-- One formal parameter of a function signature: its name and, when one
is declared, its default value. -/
structure Param where
  name : PyStr
  default : Option Value
deriving Repr

/-- A Python entity (function or class) as the linter sees it.  `id` is
the object's identity (`is` comparison); `call` is the entity's runtime
behavior on an argument list: a normal result or a raised exception. -/
structure PyObj where
  id : Nat
  name : PyStr
  kind : ObjKind
  params : List Param
  hasRetAnn : Bool
  methodCount : Nat
  call : List Value → Except PyExc Value

/-- Every diagnostic the core emits (each constructor is one
`print`/`tracer._write`/`tracer.trace` format string of the source). -/
inductive Line where
  | inspectHeader (kind name : PyStr)
  | commentLine (text : PyStr)
  | expectDefined
  | requiresLine (names : List PyStr)
  | guardLine (cond : PyStr)
  | requiredNotFound (objName reqName : PyStr)
  | guardFailed (objName cond : PyStr)
  | guardCondError (objName cond : PyStr) (e : PyExc)
  | argCountMismatch (name : PyStr) (expected found : Nat)
  | argNamesMismatch (name : PyStr) (expected got : List PyStr)
  | missingReturnAnn (name : PyStr) (expected : PyStr)
  | classNoMethods (name : PyStr)
  | traceCall
  | traceReturn (result : Value)
  | returnedWrongType (name actual expected : PyStr)
  | raisedButShouldNot (name excClass : PyStr)
  | exceptionObserved (name : PyStr) (e : PyExc)
  | lintOpen
  | lintDone
deriving DecidableEq, Repr

/-- Severity of a reported line, read off the glyph the source prints:
`💥` is an error, `⚠️` a warning, `ℹ️` informational. -/
inductive Severity where
  | err
  | warn
  | info
deriving DecidableEq, Repr

/-- The glyph each `Line` is printed with in the source. -/
def lineSeverity : Line → Severity
  | .guardCondError _ _ _ => .err
  | .raisedButShouldNot _ _ => .err
  | .exceptionObserved _ _ => .info
  | .requiredNotFound _ _ => .warn
  | .guardFailed _ _ => .warn
  | .argCountMismatch _ _ _ => .warn
  | .argNamesMismatch _ _ _ => .warn
  | .missingReturnAnn _ _ => .warn
  | .classNoMethods _ => .warn
  | .returnedWrongType _ _ _ => .warn
  | _ => .info

/-!
## `Nakurity._dummy_value`, `_static_check`, `_simulate_runtime`,
`_check_requirements`, `_check_guard`, `_analyze_entry`, `lint`
-/

/-- `Nakurity._dummy_value` (it reads only `param.name`). -/
def dummyValue (paramName : PyStr) : Value :=
  let name := pyLower paramName
  if pyContains name (pstr "path") || pyContains name (pstr "file") then
    Value.vStr (pstr "dummy.txt")
  else if pyContains name (pstr "count") || pyContains name (pstr "num") ||
      pyContains name (pstr "id") then
    Value.vInt 1
  else if pyContains name (pstr "flag") || pyStartsWith name (pstr "is_") then
    Value.vBool true
  else
    Value.vStr (pstr "x")

/-- The synthesizer as §4.5 of the spec words it (case-insensitive
substring heuristics on the parameter name, first match wins, fixed
priority).  Written from the spec to be compared against `dummyValue`. -/
def specSynthesize (paramName : PyStr) : Value :=
  let containsCI := fun (s pat : PyStr) => pyContains (pyLower s) (pyLower pat)
  let startsCI := fun (s pat : PyStr) => pyStartsWith (pyLower s) (pyLower pat)
  if containsCI paramName (pstr "path") || containsCI paramName (pstr "file") then
    Value.vStr (pstr "dummy.txt")
  else if containsCI paramName (pstr "count") || containsCI paramName (pstr "num") ||
      containsCI paramName (pstr "id") then
    Value.vInt 1
  else if containsCI paramName (pstr "flag") || startsCI paramName (pstr "is_") then
    Value.vBool true
  else
    Value.vStr (pstr "x")

/-- Python `set(a) == set(b)` on lists of strings. -/
def sameSet (a b : List PyStr) : Bool :=
  a.all (fun x => b.contains x) && b.all (fun x => a.contains x)

/-- `Nakurity._static_check`. -/
def staticCheck (obj : PyObj) (rules : Rules) : List Line :=
  match obj.kind with
  | .func =>
    let paramNames := obj.params.map (fun p => p.name)
    (match rules.args_expected_count with
     | some n =>
        if obj.params.length ≠ n then
          [Line.argCountMismatch obj.name n obj.params.length]
        else []
     | none => []) ++
    (if !rules.args.isEmpty && !sameSet rules.args paramNames then
      [Line.argNamesMismatch obj.name rules.args paramNames]
     else []) ++
    (match rules.ret with
     | some r => if !r.isEmpty && !obj.hasRetAnn then
          [Line.missingReturnAnn obj.name r]
        else []
     | none => [])
  | .cls =>
    if obj.methodCount == 0 then [Line.classNoMethods obj.name] else []
  | .other => []

/-- The synthesized positional arguments of `Nakurity._simulate_runtime`:
a declared default when present, else `_dummy_value`. -/
def mkFakeArgs (params : List Param) : List Value :=
  params.map (fun p =>
    match p.default with
    | some d => d
    | none => dummyValue p.name)

/-- `Nakurity._simulate_runtime`.  The `try/except Exception` of the
source is the `match` on the call's `Except` result: a raised exception
becomes a reported line, never a propagated fault. -/
def simulateRuntime (obj : PyObj) (rules : Rules) : List Line :=
  match obj.kind with
  | .func =>
    let fakeArgs := mkFakeArgs obj.params
    Line.traceCall ::
    (match obj.call fakeArgs with
     | .ok result =>
        Line.traceReturn result ::
        (match rules.ret with
         | some expected =>
            if !expected.isEmpty && isPrimName expected &&
                !isInstanceOf result expected then
              [Line.returnedWrongType obj.name (typeNameOf result) expected]
            else []
         | none => [])
     | .error e =>
        if rules.no_exceptions then
          [Line.raisedButShouldNot obj.name e.excClass]
        else
          [Line.exceptionObserved obj.name e])
  | _ => []

/-- The ambient Python state the lint pass consults: name resolution for
`_check_requirements` (`globals()` / `sys.modules`) and the expression
evaluator for `_check_guard` (`eval(condition, globals())`, which either
returns a value or raises). -/
structure Env where
  inGlobals : PyStr → Bool
  inModules : PyStr → Bool
  evalExpr : PyStr → Except PyExc Value

/-- `Nakurity._check_requirements`. -/
def checkRequirements (env : Env) (requires : List PyStr) (objName : PyStr) :
    List Line :=
  requires.filterMap (fun n =>
    if !env.inGlobals n && !env.inModules n then
      some (Line.requiredNotFound objName n)
    else none)

/-- `Nakurity._check_guard`: evaluate the condition; a raised exception
becomes a `guardCondError` line, a falsy result a `guardFailed` line. -/
def checkGuard (env : Env) (condition objName : PyStr) : List Line :=
  match env.evalExpr condition with
  | .ok ok => if !pyTruthy ok then [Line.guardFailed objName condition] else []
  | .error e => [Line.guardCondError objName condition e]

/-- One registry entry of `Nakurity._registry`: the entity and the four
metadata fields the annotators fill in. -/
structure Entry where
  obj : PyObj
  expect : Option PyStr
  comment : Option PyStr
  require : List PyStr
  guard : Option PyStr

/-- Truthiness of an optional string field (`if comment:` etc.). -/
def optTruthy : Option PyStr → Bool
  | some s => !s.isEmpty
  | none => false

/-- `Nakurity._analyze_entry`: the header prints, then the requirement,
guard and expectation checks. -/
def analyzeEntry (env : Env) (entry : Entry) : List Line :=
  let obj := entry.obj
  Line.inspectHeader (kindWord obj.kind) obj.name ::
  ((match entry.comment with
    | some c => if !c.isEmpty then [Line.commentLine c] else []
    | none => []) ++
   (if optTruthy entry.expect then [Line.expectDefined] else []) ++
   (if !entry.require.isEmpty then [Line.requiresLine entry.require] else []) ++
   (match entry.guard with
    | some g => if !g.isEmpty then [Line.guardLine g] else []
    | none => []) ++
   checkRequirements env entry.require obj.name ++
   (match entry.guard with
    | some g => if !g.isEmpty then checkGuard env g obj.name else []
    | none => []) ++
   (match entry.expect with
    | some ex =>
      if !ex.isEmpty then
        let rules := parseExpectations ex
        staticCheck obj rules ++ simulateRuntime obj rules
      else []
    | none => []))

/-- `Nakurity.lint`: the banner prints and the walk over the registry. -/
def lint (env : Env) (registry : List Entry) : List Line :=
  Line.lintOpen :: registry.flatMap (analyzeEntry env) ++ [Line.lintDone]

/-!
## The annotation registry — `Nakurity.expect/comment/require/guard`

Identity (`entry["obj"] is obj`) is `PyObj.id` equality.  Each decorator
body below is translated from the corresponding classmethod; each returns
the original object (`return obj`), so the decorators are modelled as
`registry → registry` transformers plus the identity-returning pair in
`applyAnnot`.
-/

/-- `Nakurity.expect`'s decorator: unconditionally appends a fresh entry. -/
def applyExpect (text : PyStr) (o : PyObj) (reg : List Entry) : List Entry :=
  reg ++ [{ obj := o, expect := some (pyStrip text), comment := none,
            require := [], guard := none }]

/-- `Nakurity.comment`'s decorator: set `comment` on the first entry for
this identity, else append a comment-only entry (`for … else` in Python). -/
def applyComment (text : PyStr) (o : PyObj) : List Entry → List Entry
  | [] => [{ obj := o, expect := none, comment := some (pyStrip text),
             require := [], guard := none }]
  | e :: rest =>
    if e.obj.id == o.id then { e with comment := some (pyStrip text) } :: rest
    else e :: applyComment text o rest

/-- `Nakurity.require`'s decorator: extend `require` on the first entry
for this identity, else append a require-only entry. -/
def applyRequire (names : List PyStr) (o : PyObj) : List Entry → List Entry
  | [] => [{ obj := o, expect := none, comment := none,
             require := names, guard := none }]
  | e :: rest =>
    if e.obj.id == o.id then { e with require := e.require ++ names } :: rest
    else e :: applyRequire names o rest

/-- `Nakurity.guard`'s decorator: set `guard` on the first entry for this
identity, else append a guard-only entry. -/
def applyGuard (condition : PyStr) (o : PyObj) : List Entry → List Entry
  | [] => [{ obj := o, expect := none, comment := none,
             require := [], guard := some condition }]
  | e :: rest =>
    if e.obj.id == o.id then { e with guard := some condition } :: rest
    else e :: applyGuard condition o rest

/-- One annotator application, abstractly. -/
inductive Annot where
  | expect (text : PyStr)
  | comment (text : PyStr)
  | require (names : List PyStr)
  | guard (condition : PyStr)

/-- Apply one annotator's decorator to an entity: the mutated registry and
the decorator's return value (`return obj` in all four). -/
def applyAnnot (a : Annot) (o : PyObj) (reg : List Entry) : List Entry × PyObj :=
  match a with
  | .expect t => (applyExpect t o reg, o)
  | .comment t => (applyComment t o reg, o)
  | .require ns => (applyRequire ns o reg, o)
  | .guard c => (applyGuard c o reg, o)

/-- Apply a stack of annotators in order, each to the entity the previous
one returned. -/
def applyAnnots : List Annot → PyObj → List Entry → List Entry × PyObj
  | [], o, reg => (reg, o)
  | a :: rest, o, reg =>
    let (reg2, o2) := applyAnnot a o reg
    applyAnnots rest o2 reg2

/-- Number of registry entries whose entity has identity `i`. -/
def countId (i : Nat) (reg : List Entry) : Nat :=
  (reg.filter (fun e => e.obj.id == i)).length

/-!
## `NakurityRequirement._verify_all_decorated` (requirement.py)

A module member is an object plus its `__module__` attribute
(`getattr(obj, "__module__", None)`, hence an `Option`); module names
are interned as `Nat`.  The list comprehension's condition is
`isfunction(obj) or isclass(obj) and module == name`, which Python
parses as `isfunction(obj) or (isclass(obj) and module == name)`:
the ownership test binds only to the class test.
-/

/-- One member `inspect.getmembers(module)` yields. -/
structure Member where
  obj : PyObj
  module : Option Nat

/-- The comprehension filter of `_verify_all_decorated`, with Python's
`or`/`and` precedence. -/
def memberIncluded (modName : Nat) (m : Member) : Bool :=
  m.obj.kind == ObjKind.func ||
    (m.obj.kind == ObjKind.cls && m.module == some modName)

/-- `defined_objs` of `_verify_all_decorated`. -/
def definedObjs (modName : Nat) (members : List Member) : List Member :=
  members.filter (memberIncluded modName)

/-- The message of the `Exception` the strict check raises. -/
def missingMsg (name : PyStr) : PyStr :=
  name ++ pstr " is missing Nakurity decorators."

/-- The `for obj in defined_objs` loop: raise on the first object not in
`registered_objs` (`in` on functions and classes is identity). -/
def verifyLoop (registeredIds : List Nat) : List Member → Except PyStr Unit
  | [] => Except.ok ()
  | m :: rest =>
    if !registeredIds.contains m.obj.id then
      Except.error (missingMsg m.obj.name)
    else verifyLoop registeredIds rest

/-- `NakurityRequirement._verify_all_decorated`. -/
def verifyAllDecorated (modName : Nat) (members : List Member)
    (registry : List Entry) : Except PyStr Unit :=
  verifyLoop (registry.map (fun e => e.obj.id)) (definedObjs modName members)

/-!
## `Nakuly.analyze` (nakuly.py)

A plugin rule carries `name`, `description` and `check(entry, obj,
logger)`; `check`'s result is a pass/fail boolean or a raised exception.
`Devy._analyze_entry` (devy.py is not among the source files) is an
arbitrary procedure that may raise, passed in as `devyCheck`.
-/

/-- A `NakurityRule` plugin as `Nakuly.analyze` consumes it. -/
structure NRule where
  name : PyStr
  description : PyStr
  check : Entry → Except PyExc Bool

/-- The logger lines `Nakuly.analyze` (and `report_summary`) emits. -/
inductive NLine where
  | nkOpen
  | nkInspect (name : PyStr)
  | nkDevyError (name : PyStr) (e : PyExc)
  | nkRuleResult (ruleName desc : PyStr) (passed : Bool)
  | nkRuleError (ruleName : PyStr) (e : PyExc)
  | nkClose
deriving DecidableEq, Repr

/-- The logger line one plugin application produces (the `try/except`
around `rule.check`): a pass/fail status line, or the caught-fault line. -/
def ruleLine (entry : Entry) (r : NRule) : NLine :=
  match r.check entry with
  | .ok passed => NLine.nkRuleResult r.name r.description passed
  | .error exc => NLine.nkRuleError r.name exc

/-- The `for rule in self.rules` loop of `Nakuly.analyze`. -/
def rulesLoop (entry : Entry) : List NRule → List NLine
  | [] => []
  | r :: rest =>
    (match r.check entry with
     | .ok passed => NLine.nkRuleResult r.name r.description passed
     | .error exc => NLine.nkRuleError r.name exc) :: rulesLoop entry rest

/-- The `try/except` around the inherited `self._analyze_entry(entry)`. -/
def devyLines (devyCheck : Entry → Except PyExc Unit) (e : Entry) : List NLine :=
  match devyCheck e with
  | .ok _ => []
  | .error exc => [NLine.nkDevyError e.obj.name exc]

/-- The `for entry in self._registry` loop of `Nakuly.analyze`. -/
def entriesLoop (devyCheck : Entry → Except PyExc Unit) (rules : List NRule) :
    List Entry → List NLine
  | [] => []
  | e :: rest =>
    NLine.nkInspect e.obj.name ::
      (devyLines devyCheck e ++ rulesLoop e rules) ++
      entriesLoop devyCheck rules rest

/-- `Nakuly.analyze`. -/
def nakulyAnalyze (devyCheck : Entry → Except PyExc Unit) (rules : List NRule)
    (registry : List Entry) : List NLine :=
  NLine.nkOpen :: entriesLoop devyCheck rules registry ++ [NLine.nkClose]

/-!
## Predicates and concrete fixtures the theorems use
-/

/-- Whether a raw expectation line matches any of the five patterns of
`_parse_expectations` after stripping and lower-casing (the claim's
"contains a recognized token"). -/
def lineRecognized (raw : PyStr) : Bool :=
  let line := pyLower (pyStrip raw)
  (pyContains line argumentTok && pyContains line colonTok) ||
    pyStartsWith line takesTok ||
    pyContains line returnTok ||
    pyContains line noExceptionTok ||
    pyContains line shouldNotRaiseTok ||
    pyContains line mustCallTok

/-- The string holds no ASCII uppercase letter. -/
def NoUpper (s : PyStr) : Prop := ∀ c ∈ s, isUpperCp c = false

/-- The string holds some ASCII uppercase letter. -/
def hasUpper (s : PyStr) : Bool := s.any isUpperCp

/-- A target that raises on every call (`ValueError`). -/
def failExc : PyExc := { excClass := pstr "ValueError", msg := pstr "bad" }

/-- A function entity whose body always raises. -/
def failObj : PyObj :=
  { id := 3, name := pstr "boom", kind := ObjKind.func, params := [],
    hasRetAnn := false, methodCount := 0,
    call := fun _ => Except.error failExc }

/-- The doubling function of the source's example usage. -/
def dblObj : PyObj :=
  { id := 5, name := pstr "double", kind := ObjKind.func,
    params := [{ name := pstr "x", default := none }],
    hasRetAnn := true, methodCount := 0,
    call := fun _ => Except.ok (Value.vInt 2) }

/-- The exception `eval("1/0")` raises. -/
def zeroDivExc : PyExc :=
  { excClass := pstr "ZeroDivisionError", msg := pstr "division by zero" }

/-- An ambient state whose expression evaluator always raises
`ZeroDivisionError` (the guard `"1/0"` of the spec's Scenario 3). -/
def guardEnv : Env :=
  { inGlobals := fun _ => true, inModules := fun _ => false,
    evalExpr := fun _ => Except.error zeroDivExc }

/-- An entity guarded by the expression `"1/0"`. -/
def guardedEntry : Entry :=
  { obj := { id := 6, name := pstr "say_hi", kind := ObjKind.func, params := [],
             hasRetAnn := false, methodCount := 0,
             call := fun _ => Except.ok Value.vNone },
    expect := none, comment := none, require := [], guard := some (pstr "1/0") }

/-- The entry after the guarded one in the registry. -/
def nextEntry : Entry :=
  { obj := { id := 7, name := pstr "greet", kind := ObjKind.func, params := [],
             hasRetAnn := false, methodCount := 0,
             call := fun _ => Except.ok Value.vNone },
    expect := none, comment := none, require := [], guard := none }

/-- A function whose declared parameter `X` has an uppercase name. -/
def upObj : PyObj :=
  { id := 8, name := pstr "f", kind := ObjKind.func,
    params := [{ name := pstr "X", default := none }],
    hasRetAnn := true, methodCount := 0,
    call := fun _ => Except.ok (Value.vInt 0) }

/-- An unannotated function imported into the module under enforcement
from another module (`__module__` is `99`, the module's name is `1`). -/
def importedFunMember : Member :=
  { obj := { id := 9, name := pstr "helper", kind := ObjKind.func, params := [],
             hasRetAnn := false, methodCount := 0,
             call := fun _ => Except.ok Value.vNone },
    module := some 99 }

/-- An unannotated class imported from another module. -/
def foreignClsMember : Member :=
  { obj := { id := 10, name := pstr "Helper", kind := ObjKind.cls, params := [],
             hasRetAnn := false, methodCount := 0,
             call := fun _ => Except.ok Value.vNone },
    module := some 99 }

/-!
## Helper lemmas
-/

theorem applyAnnot_snd (a : Annot) (o : PyObj) (reg : List Entry) :
    (applyAnnot a o reg).2 = o := by
  cases a <;> rfl

theorem mem_lint_of_mem_analyze (env : Env) (registry : List Entry)
    (ent : Entry) (x : Line) (hent : ent ∈ registry)
    (hx : x ∈ analyzeEntry env ent) : x ∈ lint env registry := by
  have h1 : x ∈ registry.flatMap (analyzeEntry env) :=
    List.mem_flatMap.mpr ⟨ent, hent, hx⟩
  simp [lint, List.mem_cons, List.mem_append, h1]

theorem mem_analyzeEntry_of_guard_line (env : Env) (ent : Entry) (g : PyStr)
    (x : Line) (hg : ent.guard = some g) (hne : g.isEmpty = false)
    (hx : x ∈ checkGuard env g ent.obj.name) : x ∈ analyzeEntry env ent := by
  unfold analyzeEntry
  rw [hg]
  simp only [hne, Bool.not_false, if_true, List.mem_cons, List.mem_append]
  tauto

theorem isUpperCp_lowerCp (c : Nat) : isUpperCp (lowerCp c) = false := by
  by_cases h : isUpperCp c = true
  · have hc : 65 ≤ c ∧ c ≤ 90 := by simpa [isUpperCp] using h
    have hv : lowerCp c = c + 32 := by simp [lowerCp, h]
    rw [hv]
    simp [isUpperCp]
    omega
  · have hf : isUpperCp c = false := by simp at h; exact h
    simp [lowerCp, hf]

theorem noUpper_pyLower (s : PyStr) : NoUpper (pyLower s) := by
  intro c hc
  simp only [pyLower, List.mem_map] at hc
  obtain ⟨a, _, rfl⟩ := hc
  exact isUpperCp_lowerCp a

theorem mem_dropWhile {p : Nat → Bool} {l : PyStr} {c : Nat}
    (h : c ∈ l.dropWhile p) : c ∈ l := by
  induction l with
  | nil => simp at h
  | cons a t ih =>
    rw [List.dropWhile_cons] at h
    by_cases hp : p a = true
    · simp only [hp, if_true] at h
      exact List.mem_cons_of_mem _ (ih h)
    · simp only [hp, if_false] at h
      exact h

theorem mem_pyStrip {s : PyStr} {c : Nat} (h : c ∈ pyStrip s) : c ∈ s := by
  unfold pyStrip lstrip at h
  rw [List.mem_reverse] at h
  have h2 := mem_dropWhile h
  rw [List.mem_reverse] at h2
  exact mem_dropWhile h2

theorem noUpper_pyStrip {s : PyStr} (h : NoUpper s) : NoUpper (pyStrip s) :=
  fun c hc => h c (mem_pyStrip hc)

theorem splitIf_ne_nil (p : Nat → Bool) (s : PyStr) : splitIf p s ≠ [] := by
  cases s with
  | nil => simp [splitIf]
  | cons c rest =>
    unfold splitIf
    by_cases hp : p c = true
    · simp [hp]
    · simp only [hp, if_false]
      cases h : splitIf p rest <;> simp

theorem mem_splitIf_subset (p : Nat → Bool) (s : PyStr) :
    ∀ part ∈ splitIf p s, ∀ c ∈ part, c ∈ s := by
  induction s with
  | nil =>
    intro part hp c hc
    simp only [splitIf, List.mem_singleton] at hp
    subst hp
    simp at hc
  | cons a t ih =>
    intro part hp c hc
    unfold splitIf at hp
    by_cases ha : p a = true
    · simp only [ha, if_true, List.mem_cons] at hp
      rcases hp with rfl | hp
      · simp at hc
      · exact List.mem_cons_of_mem _ (ih part hp c hc)
    · simp only [ha, if_false] at hp
      cases hs : splitIf p t with
      | nil => exact absurd hs (splitIf_ne_nil p t)
      | cons f fs =>
        rw [hs] at hp
        rcases List.mem_cons.mp hp with rfl | hp
        · rcases List.mem_cons.mp hc with rfl | hcf
          · exact List.mem_cons_self _ _
          · exact List.mem_cons_of_mem _
              (ih f (hs ▸ List.mem_cons_self f fs) c hcf)
        · exact List.mem_cons_of_mem _
            (ih part (hs ▸ List.mem_cons_of_mem f hp) c hc)

theorem noUpper_replaceComma {s : PyStr} (h : NoUpper s) :
    NoUpper (replaceCommaSpace s) := by
  intro c hc
  simp only [replaceCommaSpace, List.mem_map] at hc
  obtain ⟨a, ha, rfl⟩ := hc
  by_cases h44 : a == 44
  · simp [h44]
    decide
  · simp only [h44, if_false]
    exact h a ha

theorem noUpper_splitWs {s : PyStr} (h : NoUpper s) :
    ∀ t ∈ splitWs s, NoUpper t := by
  intro t ht c hc
  unfold splitWs at ht
  exact h c (mem_splitIf_subset _ s t (List.mem_filter.mp ht).1 c hc)

theorem getD_mem_or_eq {α : Type} (l : List α) (i : Nat) (d : α) :
    l.getD i d ∈ l ∨ l.getD i d = d := by
  induction l generalizing i with
  | nil => right; rfl
  | cons a t ih =>
    cases i with
    | zero => left; exact List.mem_cons_self _ _
    | succ j =>
      rcases ih j with h | h
      · left; exact List.mem_cons_of_mem _ h
      · right; exact h

theorem parseLine_args_cases (r : Rules) (raw : PyStr) :
    (parseLine r raw).args = r.args ∨
    (parseLine r raw).args =
      r.args ++ splitWs (replaceCommaSpace (pyStrip
        ((splitIf (fun c => c == 58) (pyLower (pyStrip raw))).getD 1 []))) := by
  cases h0 : (pyLower (pyStrip raw)).isEmpty with
  | true => left; simp only [parseLine, h0, if_true]
  | false =>
    cases h1 : (pyContains (pyLower (pyStrip raw)) argumentTok &&
        pyContains (pyLower (pyStrip raw)) colonTok) with
    | true =>
      right
      simp only [parseLine, h0, h1, Bool.false_eq_true, if_false, if_true]
    | false =>
      cases h2 : pyStartsWith (pyLower (pyStrip raw)) takesTok with
      | true =>
        left
        simp only [parseLine, h0, h1, h2, Bool.false_eq_true, if_false, if_true]
        cases firstDigitTok (pyLower (pyStrip raw)) <;> rfl
      | false =>
        left
        simp only [parseLine, h0, h1, h2, Bool.false_eq_true, if_false]
        split_ifs <;> rfl

theorem parseLine_args_noUpper (r : Rules) (raw : PyStr)
    (h : ∀ a ∈ r.args, NoUpper a) :
    ∀ a ∈ (parseLine r raw).args, NoUpper a := by
  rcases parseLine_args_cases r raw with hc | hc
  · rw [hc]; exact h
  · rw [hc]
    intro a ha
    rcases List.mem_append.mp ha with h' | h'
    · exact h a h'
    · rcases getD_mem_or_eq
        (splitIf (fun c => c == 58) (pyLower (pyStrip raw))) 1 [] with hm | hm
      · have hU : NoUpper ((splitIf (fun c => c == 58)
            (pyLower (pyStrip raw))).getD 1 []) :=
          fun c hcc => noUpper_pyLower (pyStrip raw) c
            (mem_splitIf_subset _ _ _ hm c hcc)
        exact noUpper_splitWs (noUpper_replaceComma (noUpper_pyStrip hU)) a h'
      · rw [hm] at h'
        have hz : splitWs (replaceCommaSpace (pyStrip ([] : PyStr))) = [] := rfl
        rw [hz] at h'
        exact absurd h' (List.not_mem_nil a)

theorem parseExpectations_args_noUpper (text : PyStr) :
    ∀ a ∈ (parseExpectations text).args, NoUpper a := by
  unfold parseExpectations
  generalize splitlines text = lines
  have key : ∀ (lines2 : List PyStr) (r : Rules), (∀ a ∈ r.args, NoUpper a) →
      ∀ a ∈ (lines2.foldl parseLine r).args, NoUpper a := by
    intro lines2
    induction lines2 with
    | nil => intro r h; exact h
    | cons l rest ih =>
      intro r h
      rw [List.foldl_cons]
      exact ih _ (parseLine_args_noUpper r l h)
  exact key lines emptyRules (by simp [emptyRules])

theorem applyAnnots_snd (annots : List Annot) (o : PyObj) (reg : List Entry) :
    (applyAnnots annots o reg).2 = o := by
  induction annots generalizing reg with
  | nil => rfl
  | cons a rest ih =>
    cases a <;> exact ih _

theorem rulesLoop_eq_map (e : Entry) (rules : List NRule) :
    rulesLoop e rules = rules.map (ruleLine e) := by
  induction rules with
  | nil => rfl
  | cons r rest ih => simp [rulesLoop, ruleLine, ih]

theorem entriesLoop_eq_flatMap (devyCheck : Entry → Except PyExc Unit)
    (rules : List NRule) (registry : List Entry) :
    entriesLoop devyCheck rules registry =
      registry.flatMap (fun e =>
        NLine.nkInspect e.obj.name ::
          (devyLines devyCheck e ++ rules.map (ruleLine e))) := by
  induction registry with
  | nil => rfl
  | cons e rest ih => simp [entriesLoop, ih, rulesLoop_eq_map]

/-!
## Claim theorems
-/

/-- C3: every combination of the four annotators returns the original
entity object itself, so the annotated entity's runtime behavior on every
argument list and its declared parameters are those of the un-annotated
entity. -/
theorem claim_C3_transparent (annots : List Annot) (o : PyObj) (reg : List Entry) :
    (applyAnnots annots o reg).2 = o ∧
    (∀ args, ((applyAnnots annots o reg).2).call args = o.call args) ∧
    ((applyAnnots annots o reg).2).params = o.params := by
  have h := applyAnnots_snd annots o reg
  exact ⟨h, fun args => by rw [h], by rw [h]⟩

/-- C7: the dummy-value synthesizer agrees on every parameter name with
the synthesizer as the spec words it (pure in the name, case-insensitive
substring heuristics, first match wins, fixed priority: path/file then
count/num/id then flag/is_ then the placeholder). -/
theorem claim_C7_synthesizer (paramName : PyStr) :
    dummyValue paramName = specSynthesize paramName := rfl

/-- C2: when the target's call on the synthesized arguments raises, the
simulator returns the trace event plus exactly one finding — error
severity when the rule forbids exceptions, informational otherwise — and
no fault propagates (`simulateRuntime` is a total function into lines). -/
theorem claim_C2_simulate_no_raise (obj : PyObj) (rules : Rules) (e : PyExc)
    (hk : obj.kind = ObjKind.func)
    (hc : obj.call (mkFakeArgs obj.params) = Except.error e) :
    simulateRuntime obj rules =
      [Line.traceCall,
       if rules.no_exceptions then Line.raisedButShouldNot obj.name e.excClass
       else Line.exceptionObserved obj.name e] ∧
    lineSeverity
      (if rules.no_exceptions then Line.raisedButShouldNot obj.name e.excClass
       else Line.exceptionObserved obj.name e) =
      (if rules.no_exceptions then Severity.err else Severity.info) := by
  constructor
  · unfold simulateRuntime
    rw [hk]
    simp only [hc]
    cases rules.no_exceptions <;> simp
  · cases rules.no_exceptions <;> simp [lineSeverity]

/-- Witness for C2 at a concrete always-raising target. -/
theorem claim_C2_witness :
    failObj.kind = ObjKind.func ∧
    failObj.call (mkFakeArgs failObj.params) = Except.error failExc ∧
    simulateRuntime failObj emptyRules =
      [Line.traceCall, Line.exceptionObserved failObj.name failExc] ∧
    simulateRuntime failObj { emptyRules with no_exceptions := true } =
      [Line.traceCall, Line.raisedButShouldNot failObj.name failExc.excClass] := by
  refine ⟨rfl, rfl, ?_, ?_⟩
  · exact (claim_C2_simulate_no_raise failObj emptyRules failExc rfl rfl).1
  · exact (claim_C2_simulate_no_raise failObj
      { emptyRules with no_exceptions := true } failExc rfl rfl).1

/-- C8: the unified analysis applies every plugin rule to every registry
entry in order and never short-circuits: the output is one inspect line
per entry followed by the caught result of the inherited check and one
line per rule — a raising rule contributes its caught-fault line and the
remaining rules and entries still appear. -/
theorem claim_C8_no_short_circuit (devyCheck : Entry → Except PyExc Unit)
    (rules : List NRule) (registry : List Entry) :
    nakulyAnalyze devyCheck rules registry =
      NLine.nkOpen ::
        registry.flatMap (fun e =>
          NLine.nkInspect e.obj.name ::
            (devyLines devyCheck e ++ rules.map (ruleLine e))) ++
        [NLine.nkClose] := by
  unfold nakulyAnalyze
  rw [entriesLoop_eq_flatMap]

/-- C1: evaluating the registry code at the source's own decorator
stacking (`@expect` applied after `@comment`, as in the example usage and
test.py) produces two entries for the same identity, while the opposite
order merges into one — the at-most-one-entry invariant is broken by
`expect`, which appends unconditionally. -/
theorem claim_C1_registry_duplicate :
    countId dblObj.id
      (applyExpect (pstr "takes 1 argument: x") dblObj
        (applyComment (pstr "Simple doubling function") dblObj [])) = 2 ∧
    countId dblObj.id
      (applyComment (pstr "Simple doubling function") dblObj
        (applyExpect (pstr "takes 1 argument: x") dblObj [])) = 1 := by
  exact ⟨rfl, rfl⟩

/-- C5: evaluating the strict enforcement at a module (named `1`) whose
only member is an unannotated function imported from module `99`: the
check raises on it (Python parses the filter as
`isfunction(obj) or (isclass(obj) and owned)`, so the ownership test
never applies to functions), while an imported class is excluded. -/
theorem claim_C5_ownership_filter :
    verifyAllDecorated 1 [importedFunMember] [] =
      Except.error (missingMsg (pstr "helper")) ∧
    verifyAllDecorated 1 [foreignClsMember] [] = Except.ok () := by
  exact ⟨rfl, rfl⟩

/-- C4 counterexample: on the claim's own example line
`"takes 2 arguments: x, y"` the parser leaves `argument_count` unset (the
`argument`-and-colon pattern consumes the line first) and instead reads
the argument names `x, y`. -/
theorem claim_C4_counterexample :
    (parseExpectations (pstr "takes 2 arguments: x, y")).args_expected_count
        = none ∧
    (parseExpectations (pstr "takes 2 arguments: x, y")).args =
      [pstr "x", pstr "y"] := by
  exact ⟨rfl, rfl⟩

/-- C4 as amended: a line that (after trimming, case-insensitively)
begins with `takes` and has a digit token sets `argument_count` to the
first such integer, provided the line does not also contain both the
token `argument` and a colon (in that case the argument-names pattern
consumes the line instead). -/
theorem claim_C4_takes_count (raw : PyStr) (r : Rules) (n : Nat)
    (hnotarg : (pyContains (pyLower (pyStrip raw)) argumentTok &&
        pyContains (pyLower (pyStrip raw)) colonTok) = false)
    (htakes : pyStartsWith (pyLower (pyStrip raw)) takesTok = true)
    (hdig : firstDigitTok (pyLower (pyStrip raw)) = some n) :
    (parseLine r raw).args_expected_count = some n := by
  have hne : (pyLower (pyStrip raw)).isEmpty = false := by
    cases hl : pyLower (pyStrip raw) with
    | nil => rw [hl] at htakes; exact absurd htakes (by decide)
    | cons a l => rfl
  unfold parseLine
  simp only [hne, hnotarg, htakes, hdig, Bool.false_eq_true, if_false, if_true]

/-- Witness for C4's amended statement at the line `"takes 2"`. -/
theorem claim_C4_witness :
    ((pyContains (pyLower (pyStrip (pstr "takes 2"))) argumentTok &&
        pyContains (pyLower (pyStrip (pstr "takes 2"))) colonTok) = false) ∧
    (pyStartsWith (pyLower (pyStrip (pstr "takes 2"))) takesTok = true) ∧
    (firstDigitTok (pyLower (pyStrip (pstr "takes 2"))) = some 2) ∧
    (parseLine emptyRules (pstr "takes 2")).args_expected_count = some 2 :=
  ⟨by decide, by decide, by decide,
   claim_C4_takes_count (pstr "takes 2") emptyRules 2
     (by decide) (by decide) (by decide)⟩

theorem parseLine_unrecognized (r : Rules) (raw : PyStr)
    (h : lineRecognized raw = false) : parseLine r raw = r := by
  unfold lineRecognized at h
  simp only [Bool.or_eq_false_iff] at h
  obtain ⟨⟨⟨⟨⟨h1, h2⟩, h3⟩, h4⟩, h5⟩, h6⟩ := h
  unfold parseLine
  by_cases he : (pyLower (pyStrip raw)).isEmpty
  · simp only [he, if_true]
  · simp only [he, h1, h2, h3, h4, h5, h6, Bool.false_eq_true, if_false,
      Bool.or_self, Bool.false_or]

theorem foldl_parseLine_unrecognized (lines : List PyStr) (r : Rules)
    (h : ∀ l ∈ lines, lineRecognized l = false) :
    lines.foldl parseLine r = r := by
  induction lines generalizing r with
  | nil => rfl
  | cons l rest ih =>
    rw [List.foldl_cons, parseLine_unrecognized r l (h l (by simp)),
      ih r (fun x hx => h x (List.mem_cons_of_mem l hx))]

/-- C9: `parse` of the empty string is the all-empty rule record, and so
is `parse` of any text none of whose lines matches a recognized pattern;
both are total computations (no fault is possible by construction). -/
theorem claim_C9_parser_tolerance (text : PyStr)
    (h : ∀ l ∈ splitlines text, lineRecognized l = false) :
    parseExpectations text = emptyRules ∧ parseExpectations [] = emptyRules :=
  ⟨foldl_parseLine_unrecognized (splitlines text) emptyRules h, rfl⟩

/-- Witness for C9 at the text `"unrelated prose"`. -/
theorem claim_C9_witness :
    (∀ l ∈ splitlines (pstr "unrelated prose"), lineRecognized l = false) ∧
    parseExpectations (pstr "unrelated prose") = emptyRules ∧
    parseExpectations [] = emptyRules :=
  ⟨by decide,
   (claim_C9_parser_tolerance (pstr "unrelated prose") (by decide)).1,
   (claim_C9_parser_tolerance (pstr "unrelated prose") (by decide)).2⟩

/-- C6: a guard whose expression raises on evaluation yields the
guard-condition-error line, a guard whose expression evaluates falsy
yields the guard-failed line, and in either case the lint pass still
reaches every later entry (its inspect header appears in the output);
`checkGuard` is total, so no evaluation fault propagates. -/
theorem claim_C6_guard_isolated (env : Env) (pre post : List Entry)
    (ent : Entry) (g : PyStr)
    (hg : ent.guard = some g) (hne : g.isEmpty = false) :
    (∀ e, env.evalExpr g = Except.error e →
      Line.guardCondError ent.obj.name g e ∈ lint env (pre ++ ent :: post)) ∧
    (∀ v, env.evalExpr g = Except.ok v → pyTruthy v = false →
      Line.guardFailed ent.obj.name g ∈ lint env (pre ++ ent :: post)) ∧
    (∀ e2 ∈ post,
      Line.inspectHeader (kindWord e2.obj.kind) e2.obj.name ∈
        lint env (pre ++ ent :: post)) := by
  have hmem : ent ∈ pre ++ ent :: post := by simp
  refine ⟨?_, ?_, ?_⟩
  · intro e he
    refine mem_lint_of_mem_analyze env _ ent _ hmem ?_
    refine mem_analyzeEntry_of_guard_line env ent g _ hg hne ?_
    simp [checkGuard, he]
  · intro v hv htr
    refine mem_lint_of_mem_analyze env _ ent _ hmem ?_
    refine mem_analyzeEntry_of_guard_line env ent g _ hg hne ?_
    simp [checkGuard, hv, htr]
  · intro e2 he2
    refine mem_lint_of_mem_analyze env _ e2 _ ?_ ?_
    · exact List.mem_append_right _ (List.mem_cons_of_mem _ he2)
    · exact List.mem_cons_self _ _

/-- Witness for C6: guard `"1/0"` raising `ZeroDivisionError`, with a
following registry entry that is still inspected. -/
theorem claim_C6_witness :
    guardedEntry.guard = some (pstr "1/0") ∧
    (pstr "1/0").isEmpty = false ∧
    Line.guardCondError guardedEntry.obj.name (pstr "1/0") zeroDivExc ∈
      lint guardEnv ([] ++ guardedEntry :: [nextEntry]) ∧
    Line.inspectHeader (kindWord nextEntry.obj.kind) nextEntry.obj.name ∈
      lint guardEnv ([] ++ guardedEntry :: [nextEntry]) := by
  have h := claim_C6_guard_isolated guardEnv [] [nextEntry] guardedEntry
    (pstr "1/0") rfl rfl
  exact ⟨rfl, rfl, h.1 zeroDivExc rfl, h.2.2 nextEntry (by simp)⟩

/-- C10: the parser lower-cases every line, so every parsed argument name
is free of uppercase letters, while the static checker compares those
names verbatim (as sets) against the declared parameter names: whenever
some declared parameter contains an uppercase letter and the expectation
text yields any argument names at all, the argument-names-mismatch
finding is reported — even when the text lists exactly the declared
names, matching them case-insensitively. -/
theorem claim_C10_case_mismatch (text : PyStr) (obj : PyObj)
    (hk : obj.kind = ObjKind.func)
    (hargs : (parseExpectations text).args ≠ [])
    (hup : ∃ p ∈ obj.params.map (fun q => q.name), hasUpper p = true) :
    Line.argNamesMismatch obj.name (parseExpectations text).args
      (obj.params.map (fun q => q.name)) ∈
      staticCheck obj (parseExpectations text) := by
  obtain ⟨p, hpmem, hpup⟩ := hup
  have hnotin : p ∉ (parseExpectations text).args := by
    intro hin
    obtain ⟨c, hc, hcu⟩ := List.any_eq_true.mp hpup
    have := parseExpectations_args_noUpper text p hin c hc
    rw [this] at hcu
    exact absurd hcu (by decide)
  have hss : sameSet (parseExpectations text).args
      (obj.params.map (fun q => q.name)) = false := by
    by_contra hss'
    have htr : sameSet (parseExpectations text).args
        (obj.params.map (fun q => q.name)) = true := by
      simpa using hss'
    unfold sameSet at htr
    rw [Bool.and_eq_true] at htr
    have h2 := List.all_eq_true.mp htr.2 p hpmem
    exact hnotin (List.elem_iff.mp h2)
  have hie : (parseExpectations text).args.isEmpty = false := by
    cases hargs2 : (parseExpectations text).args with
    | nil => exact absurd hargs2 hargs
    | cons a l => rfl
  unfold staticCheck
  rw [hk]
  simp only [hie, hss, Bool.not_false, Bool.and_self, if_true,
    List.mem_append, List.mem_cons]
  tauto

/-- Witness for C10: parameter list `[X]` and the expectation text
`"arguments: X"`, which lists exactly the declared name. -/
theorem claim_C10_witness :
    upObj.kind = ObjKind.func ∧
    (parseExpectations (pstr "arguments: X")).args ≠ [] ∧
    (∃ p ∈ upObj.params.map (fun q => q.name), hasUpper p = true) ∧
    Line.argNamesMismatch upObj.name
      (parseExpectations (pstr "arguments: X")).args
      (upObj.params.map (fun q => q.name)) ∈
      staticCheck upObj (parseExpectations (pstr "arguments: X")) :=
  ⟨rfl, by decide, by decide,
   claim_C10_case_mismatch (pstr "arguments: X") upObj rfl
     (by decide) (by decide)⟩
